import Mathlib

/-!
Verification development for the session manager and device cache of the
python-nest client library (src/nest/nest.py). The Python source is shallowly
embedded: pure computations become Lean functions, stateful methods become
functions on explicit state records, exceptions become Except / dedicated
outcome constructors, and external collaborators (HTTP transport, OAuth
library, file system, wall clock) become explicit environment parameters.
-/

namespace Nest

/-- Model of a parsed JSON value, as produced by response.json() and passed
as request bodies before json.dumps serialisation. -/
inductive Json where
  | null : Json
  | bool (b : Bool) : Json
  | str (s : String) : Json
  | num (n : Int) : Json
  | obj (fields : List (String × Json)) : Json
  | arr (elems : List Json) : Json

/-- Model of the exceptions that can escape the reauthorization path: the
built-in Python errors plus the library-defined AuthorizationError. -/
inductive PyError where
  | attributeError (name : String) : PyError
  | keyError (name : String) : PyError
  | indexError (i : Nat) : PyError
  | valueError (msg : String) : PyError
  | authorizationError (msg : String) : PyError
deriving DecidableEq

/-- Source constant ACCESS_TOKEN_URL of nest.py. -/
def ACCESS_TOKEN_URL : String := "https://www.googleapis.com/oauth2/v4/token"

/-- Source constant AUTHORIZE_URL of nest.py; the brace field project_id is a
named replacement field of the Python str.format template. -/
def AUTHORIZE_URL : String :=
  "https://nestservices.google.com/partnerconnections/{project_id}/auth"

/-- Source constant API_URL of nest.py. -/
def API_URL : String :=
  "https://smartdevicemanagement.googleapis.com/v1/enterprises/{project_id}/devices"

/-- Source constant THERMOSTAT_TYPE of nest.py. -/
def THERMOSTAT_TYPE : String := "sdm.devices.types.THERMOSTAT"

/-- Value of a decimal digit string, most significant first. -/
def digitsToNat : List Char → Nat → Nat
  | [], acc => acc
  | c :: cs, acc => digitsToNat cs (acc * 10 + (c.toNat - 48))

/-- Numeric index denoted by a replacement field name, none when the name is
not all digits. -/
def fieldIndex (cs : List Char) : Option Nat :=
  if cs.isEmpty then none
  else if cs.all Char.isDigit then some (digitsToNat cs 0) else none

/-- Lookup of a replacement field name among keyword arguments. -/
def lookupKw (key : List Char) : List (String × String) → Option String
  | [] => none
  | (k, v) :: rest => if k.data = key then some v else lookupKw key rest

/-- Resolution of one replacement field of a Python str.format call: a
numeric field indexes the positional arguments, an empty field takes the
next positional argument by auto-numbering (our templates hold at most one
field), and any other field name is looked up among the keyword arguments,
raising KeyError when absent. -/
def formatField (field : List Char) (args : List String)
    (kwargs : List (String × String)) : Except PyError String :=
  if field.isEmpty then
    match args.get? 0 with
    | some v => Except.ok v
    | none => Except.error (PyError.indexError 0)
  else
    match fieldIndex field with
    | some i =>
      match args.get? i with
      | some v => Except.ok v
      | none => Except.error (PyError.indexError i)
    | none =>
      match lookupKw field kwargs with
      | some v => Except.ok v
      | none => Except.error (PyError.keyError (String.mk field))

/-- Walk of the template of a Python str.format call over its characters.
The second list accumulates, reversed, the name of the replacement field
currently open, none when outside braces. -/
def pyFormatAux (args : List String) (kwargs : List (String × String)) :
    List Char → Option (List Char) → Except PyError (List Char)
  | [], none => Except.ok []
  | [], some _ => Except.error (PyError.valueError "unmatched brace in format string")
  | c :: cs, none =>
    if c = '{' then
      pyFormatAux args kwargs cs (some [])
    else
      match pyFormatAux args kwargs cs none with
      | Except.ok r => Except.ok (c :: r)
      | Except.error e => Except.error e
  | c :: cs, some fld =>
    if c = '}' then
      match formatField fld.reverse args kwargs with
      | Except.ok v =>
        match pyFormatAux args kwargs cs none with
        | Except.ok r => Except.ok (v.data ++ r)
        | Except.error e => Except.error e
      | Except.error e => Except.error e
    else
      pyFormatAux args kwargs cs (some (c :: fld))

/-- Python template.format(args, kwargs) on a template string. -/
def pyFormat (template : String) (args : List String)
    (kwargs : List (String × String)) : Except PyError String :=
  match pyFormatAux args kwargs template.data none with
  | Except.ok cs => Except.ok (String.mk cs)
  | Except.error e => Except.error e

/-- Configuration of a Nest session: the constructor arguments that the
request and reauthorization paths read. -/
structure NestConfig where
  clientId : String
  clientSecret : String
  projectId : String
  cachePeriod : Nat

/-- Source property Nest.api_url: API_URL.format with the keyword argument
project_id, which succeeds; the total wrapper defaults the unreachable error
branch to the empty string. -/
def apiUrlE (pid : String) : Except PyError String :=
  pyFormat API_URL [] [("project_id", pid)]

/-- Total form of Nest.api_url. -/
def apiUrl (pid : String) : String :=
  match apiUrlE pid with
  | Except.ok u => u
  | Except.error _ => ""

/-- One HTTP response as seen by Nest._request: the status code, the raw
body (response.content, a byte string modelled as a string), and the parsed
body, none when response.json() raises a decode error. -/
structure HTTPResponse where
  status : Nat
  content : String
  json : Option Json

/-- Outcome of one invocation of self.client.request inside Nest._request:
either a response came back, or the OAuth layer raised TokenExpiredError. -/
inductive TransportEvent where
  | response (r : HTTPResponse) : TransportEvent
  | tokenExpired : TransportEvent

/-- Environment of one Nest._request call, indexed by the loop iteration
number (the source variable attempt, starting at 1): the transport outcome
of the iteration, the outcome of self.client.refresh_token there (a token,
or a raised exception message), and the outcome of self.reauthorize there.
The reauthorize entry abstracts the effects of that method (callback plus
token fetch; on success the fetched token, which the method persists); its
deterministic internal failure in the source as written is modelled and
settled separately by reauthorizeModel. -/
structure ReqEnv where
  event : Nat → TransportEvent
  refresh : Nat → Except String Json
  reauth : Nat → Except PyError Json

/-- One HTTP request actually issued on the wire: the verb, the full URL and
the body as passed to json.dumps (none when data is None). -/
structure RequestCall where
  verb : String
  url : String
  body : Option Json

/-- Mutable session state touched by Nest._request: whether self.client is
set, the tokens persisted through save_token in order, the wire requests
issued, the number of self.client.request invocations, and the
(client_id, client_secret) pairs passed to refresh_token. -/
structure SessionState where
  client : Bool
  saved : List Json
  calls : List RequestCall
  transportCalls : Nat
  refreshCalls : List (String × String)

/-- Result of a terminating Nest._request call: the value returned on
HTTP 200, or the exception surfaced to the caller. -/
inductive ReqOutcome where
  | ok (body : Json) : ReqOutcome
  | jsonDecodeError : ReqOutcome
  | apiError (r : HTTPResponse) : ReqOutcome
  | authError (msg : String) : ReqOutcome
  | refreshError (msg : String) : ReqOutcome
  | reauthError (e : PyError) : ReqOutcome

/-- The while-True loop of Nest._request, against fuel: none means the loop
has not terminated within the given number of iterations. The attempt
argument holds the source counter before the increment at the top of the
body. On 200 the parsed body is returned; on a status other than 200 and
401 an APIError carrying the response is raised; on 401 control falls
through to self.reauthorize and the loop continues; on TokenExpiredError
the token is refreshed with client id and secret and persisted, after which
a second-iteration expiry raises AuthorizationError and a first-iteration
one continues the loop. -/
def requestLoop (cfg : NestConfig) (env : ReqEnv) (verb url : String)
    (body : Option Json) :
    Nat → Nat → SessionState → Option (ReqOutcome × SessionState)
  | 0, _, _ => none
  | fuel + 1, attempt, st =>
    let att := attempt + 1
    if st.client then
      match env.event att with
      | TransportEvent.response r =>
        let st1 : SessionState :=
          { st with transportCalls := st.transportCalls + 1,
                    calls := st.calls ++ [⟨verb, url, body⟩] }
        if r.status = 200 then
          match r.json with
          | some j => some (ReqOutcome.ok j, st1)
          | none => some (ReqOutcome.jsonDecodeError, st1)
        else if r.status ≠ 401 then
          some (ReqOutcome.apiError r, st1)
        else
          match env.reauth att with
          | Except.ok tok =>
            requestLoop cfg env verb url body fuel att
              { st1 with client := true, saved := st1.saved ++ [tok] }
          | Except.error e => some (ReqOutcome.reauthError e, st1)
      | TransportEvent.tokenExpired =>
        let st1 : SessionState :=
          { st with transportCalls := st.transportCalls + 1,
                    refreshCalls :=
                      st.refreshCalls ++ [(cfg.clientId, cfg.clientSecret)] }
        match env.refresh att with
        | Except.ok tok =>
          let st2 := { st1 with saved := st1.saved ++ [tok] }
          if att > 1 then some (ReqOutcome.authError "Repeated TokenExpiredError", st2)
          else requestLoop cfg env verb url body fuel att st2
        | Except.error msg => some (ReqOutcome.refreshError msg, st1)
    else
      match env.reauth att with
      | Except.ok tok =>
        requestLoop cfg env verb url body fuel att
          { st with client := true, saved := st.saved ++ [tok] }
      | Except.error e => some (ReqOutcome.reauthError e, st)

/-- Nest._request: the URL is the project-scoped api_url plus the path, and
the loop starts at attempt 0. -/
def nestRequest (cfg : NestConfig) (env : ReqEnv) (verb path : String)
    (body : Option Json) (fuel : Nat) (st : SessionState) :
    Option (ReqOutcome × SessionState) :=
  requestLoop cfg env verb (apiUrl cfg.projectId ++ path) body fuel 0 st

/-- Python path.split(sep) over characters, with an accumulator holding the
current piece reversed. -/
def pySplitAux (sep : Char) : List Char → List Char → List String
  | [], acc => [String.mk acc.reverse]
  | c :: cs, acc =>
    if c = sep then String.mk acc.reverse :: pySplitAux sep cs []
    else pySplitAux sep cs (c :: acc)

/-- Python s.split(sep) with an explicit one-character separator. -/
def pySplit (sep : Char) (s : String) : List String :=
  pySplitAux sep s.data []

/-- Path rewrite of Nest._put: split on the slashes and keep only the last
piece, slash-prefixed. -/
def putPath (path : String) : String :=
  "/" ++ (pySplit '/' path).getLastD ""

/-- Nest._put: rewrite the path and POST through Nest._request. -/
def nestPut (cfg : NestConfig) (env : ReqEnv) (path : String)
    (body : Option Json) (fuel : Nat) (st : SessionState) :
    Option (ReqOutcome × SessionState) :=
  nestRequest cfg env "POST" (putPath path) body fuel st

/-- Path built by NestBase.set for a device name. -/
def setPath (name : String) : String := "/" ++ name ++ ":executeCommand"

/-- NestBase.set: the command-execution path of a device, delegating to
Nest._put with the caller-supplied data passed through unchanged. -/
def nestSet (cfg : NestConfig) (env : ReqEnv) (name : String) (data : Json)
    (fuel : Nat) (st : SessionState) : Option (ReqOutcome × SessionState) :=
  nestPut cfg env (setPath name) (some data) fuel st

/-- Body built by the Thermostat.heat_setpoint setter: the caller of
NestBase.set supplies the fully qualified command string itself. -/
def heatSetpointBody (value : Int) : Json :=
  Json.obj [("command", Json.str "sdm.devices.commands.ThermostatMode.SetHeat"),
            ("params", Json.obj [("heatCelsius", Json.num value)])]

/-- Lookup of a key in a JSON object, none on a missing key or a non-object,
both of which raise inside the try of APIError and are caught there. -/
def jsonLookup : Json → String → Option Json
  | Json.obj fields, key => fields.lookup key
  | _, _ => none

/-- The expression response.json()[quoted error] of APIError, none when the
body fails to decode or the key is missing. -/
def jsonErrorField (r : HTTPResponse) : Option Json :=
  match r.json with
  | some j => jsonLookup j "error"
  | none => none

/-- Message attached by APIError when built from a live requests.Response
without an explicit msg argument: the generic form stands for the source
string reading API Error Occured. -/
inductive APIErrorMessage where
  | fromJson (j : Json) : APIErrorMessage
  | raw (content : String) : APIErrorMessage
  | generic : APIErrorMessage

/-- Message computation of APIError.init for a requests.Response and no
explicit msg: an empty body gives the generic message; otherwise the error
field of the decoded body when that lookup succeeds, else the raw body. -/
def apiErrorMessage (r : HTTPResponse) : APIErrorMessage :=
  if r.content = "" then APIErrorMessage.generic
  else
    match jsonErrorField r with
    | some j => APIErrorMessage.fromJson j
    | none => APIErrorMessage.raw r.content

/-- Names bound on a Nest object: the instance fields assigned in init and
the class-level methods and properties. The private methods carry their
name-mangled form. No binding is named project_id. -/
def nestAttributeNames : List String :=
  ["_client_id", "_client_secret", "_project_id", "_cache_period",
   "_access_token_cache_file", "_reautherize_callback", "_last_update",
   "_client", "_devices_value",
   "_Nest__save_token", "_Nest__reauthorize", "_request", "_put",
   "api_url", "_devices", "thermostats", "smoke_co_alarms", "cameras",
   "structures", "__init__", "__enter__", "__exit__"]

/-- Attribute read self.project_id in Nest.reauthorize: AttributeError when
no binding of that name exists on the object, else its value, which for the
project id field would be the configured project id. -/
def nestProjectIdLookup (cfg : NestConfig) : Except PyError String :=
  if nestAttributeNames.contains "project_id" then Except.ok cfg.projectId
  else Except.error (PyError.attributeError "project_id")

/-- Nest.reauthorize up to the construction of the authorization URL: raise
AuthorizationError without a configured callback, else evaluate the
attribute self.project_id and pass it positionally to
AUTHORIZE_URL.format. The later steps (authorization_url with access_type
offline and prompt consent, the callback, fetch_token, save_token) are
external collaborators, reached only if the URL construction succeeds. -/
def reauthorizeModel (cfg : NestConfig) (callbackConfigured : Bool) :
    Except PyError String :=
  if callbackConfigured then
    match nestProjectIdLookup cfg with
    | Except.ok pid => pyFormat AUTHORIZE_URL [pid] []
    | Except.error e => Except.error e
  else Except.error (PyError.authorizationError "No callback to handle OAuth URL")

/-- Authorization URL that the spec intends reauthorize to build and hand to
the callback, before the query parameters access_type offline and prompt
consent are appended. Modelled from the spec: the authorization endpoint
with the project id substituted for the template field. -/
def intendedAuthorizeUrl (pid : String) : String :=
  "https://nestservices.google.com/partnerconnections/" ++ pid ++ "/auth"

/-- One device record of the inventory, holding the two keys the embedded
accessors read: name and type. -/
structure DeviceRec where
  name : String
  type : String
deriving DecidableEq

/-- Cache state of the Nest object: the last-update timestamp and the
stored inventory, initially 0 and empty. -/
structure CacheState where
  lastUpdate : Nat
  devicesValue : List DeviceRec
deriving DecidableEq

/-- The Nest.devices property: when now exceeds the last update plus the
cache period a fetch is attempted, whose outcome is the value of the
expression self.request GET on the empty path indexed at devices, or the
exception it raises; on success the inventory is replaced wholesale and the
last update set to a second clock read taken after the fetch, on failure
the state is left unchanged. Returns the new state, the returned inventory
and the number of fetches attempted. -/
def devicesRead (cachePeriod : Nat) (st : CacheState) (now : Nat)
    (fetch : Except String (List DeviceRec)) (nowAfter : Nat) :
    CacheState × List DeviceRec × Nat :=
  if st.lastUpdate + cachePeriod < now then
    match fetch with
    | Except.ok devs => (⟨nowAfter, devs⟩, devs, 1)
    | Except.error _ => (st, st.devicesValue, 1)
  else (st, st.devicesValue, 0)

/-- The list comprehension of the Nest.thermostats property: the names of
the inventory records whose type equals THERMOSTAT_TYPE, in inventory
order; the property wraps each name in a Thermostat object. -/
def thermostatNames : List DeviceRec → List String
  | [] => []
  | d :: ds =>
    if d.type == THERMOSTAT_TYPE then d.name :: thermostatNames ds
    else thermostatNames ds

/-- Python truthiness of a JSON value, as tested by the two if statements
on access_token in Nest.init. -/
def jsonTruthy : Json → Bool
  | Json.null => false
  | Json.bool b => b
  | Json.str s => !(s = "")
  | Json.num n => !(n = 0)
  | Json.obj fields => !fields.isEmpty
  | Json.arr elems => !elems.isEmpty

/-- Truthiness of an optional token value; none stands for Python None. -/
def tokenTruthy : Option Json → Bool
  | none => false
  | some j => jsonTruthy j

/-- File system and JSON parser as seen by the token load of Nest.init. -/
structure InitEnv where
  readFile : String → Except String String
  parse : String → Except String Json

/-- Token load of Nest.init: an unset cache path (open on None raises
TypeError), a file read failure and a parse failure are all caught by the
bare except and leave no token. -/
def loadToken (env : InitEnv) (path : Option String) : Option Json :=
  match path with
  | none => none
  | some p =>
    match env.readFile p with
    | Except.error _ => none
    | Except.ok contents =>
      match env.parse contents with
      | Except.error _ => none
      | Except.ok j => some j

/-- Nest.init restricted to the token handling: when the supplied token is
falsy, a load from the cache file is attempted and overwrites the token
only on success; the client is then constructed exactly when the resulting
token is truthy. Returns whether self.client is set. The function is total:
the constructor raises on no input. -/
def nestInit (env : InitEnv) (accessToken : Option Json)
    (cachePath : Option String) : Bool :=
  let tok :=
    if tokenTruthy accessToken then accessToken
    else
      match loadToken env cachePath with
      | some t => some t
      | none => accessToken
  tokenTruthy tok

/-- Terminal outcome determined by a response of status other than 401 in
the request loop: the parsed body on 200, a decode failure when the body of
a 200 does not parse, an APIError carrying the response otherwise. -/
def respOutcome (r : HTTPResponse) : ReqOutcome :=
  if r.status = 200 then
    match r.json with
    | some j => ReqOutcome.ok j
    | none => ReqOutcome.jsonDecodeError
  else ReqOutcome.apiError r

/-- Suffix test on strings through their character lists. -/
def strEndsWith (s pat : String) : Bool :=
  pat.data.isSuffixOf s.data

/-- Example session configuration used by concrete witnesses. -/
def cfgEx : NestConfig := ⟨"client-id", "client-secret", "proj", 1000⟩

/-- Example starting session state: authenticated, nothing recorded yet. -/
def stStart : SessionState := ⟨true, [], [], 0, []⟩

/-- Example 200 response with a decodable body. -/
def rOk200 : HTTPResponse := ⟨200, "{}", some Json.null⟩

/-- Example 404 response whose body decodes to an object with an error
field. -/
def r404 : HTTPResponse :=
  ⟨404, "\x7berror: not found\x7d", some (Json.obj [("error", Json.str "not found")])⟩

/-- Example 401 response. -/
def r401 : HTTPResponse := ⟨401, "", none⟩

/-- Example environment answering every attempt with the 200 response. -/
def envOk200 : ReqEnv :=
  ⟨fun _ => TransportEvent.response rOk200,
   fun _ => Except.error "no refresh",
   fun _ => Except.error (PyError.attributeError "project_id")⟩

/-- Example environment answering every attempt with the 404 response. -/
def env404 : ReqEnv :=
  ⟨fun _ => TransportEvent.response r404,
   fun _ => Except.error "no refresh",
   fun _ => Except.error (PyError.attributeError "project_id")⟩

/-- Example environment raising TokenExpiredError on the first attempt,
refreshing successfully and answering 200 afterwards. -/
def envExpireThenOk : ReqEnv :=
  ⟨fun n => if n = 1 then TransportEvent.tokenExpired
            else TransportEvent.response rOk200,
   fun _ => Except.ok (Json.str "tok1"),
   fun _ => Except.error (PyError.attributeError "project_id")⟩

/-- Example environment answering every attempt with 401 while every
reauthorization succeeds. -/
def env401Loop : ReqEnv :=
  ⟨fun _ => TransportEvent.response r401,
   fun _ => Except.error "no refresh",
   fun _ => Except.ok Json.null⟩

/-- Example init environment whose file read always fails. -/
def envFailFile : InitEnv :=
  ⟨fun _ => Except.error "io failure", fun _ => Except.error "parse failure"⟩

/-- Claim C7: the thermostats accessor selects exactly the devices of the
inventory whose type tag equals THERMOSTAT_TYPE, in order: the selected
names are the filter of the inventory by that type mapped to names, the
filtered records form a sublist of the inventory (the original relative
order is preserved), and a record is selected exactly when it belongs to
the inventory and carries the thermostat type. -/
theorem thermostats_filter_exact (inv : List DeviceRec) :
    thermostatNames inv
      = (inv.filter (fun d => d.type == THERMOSTAT_TYPE)).map DeviceRec.name
    ∧ (inv.filter (fun d => d.type == THERMOSTAT_TYPE)).Sublist inv
    ∧ ∀ d : DeviceRec,
        d ∈ inv.filter (fun d => d.type == THERMOSTAT_TYPE)
          ↔ d ∈ inv ∧ d.type = THERMOSTAT_TYPE := by
  refine ⟨?_, List.filter_sublist inv, ?_⟩
  · induction inv with
    | nil => rfl
    | cons d ds ih =>
      by_cases h : d.type == THERMOSTAT_TYPE <;>
        simp_all [thermostatNames, h, List.filter_cons]
  · intro d
    simp [List.mem_filter]

/-- Claim C8: on a response of status 200, the request loop returns the
parsed JSON body of that response unchanged, after exactly one transport
call. -/
theorem request_success_returns_body
    (cfg : NestConfig) (env : ReqEnv) (verb url : String) (body : Option Json)
    (st : SessionState) (fuel : Nat) (r : HTTPResponse) (j : Json)
    (hc : st.client = true)
    (he : env.event 1 = TransportEvent.response r)
    (h200 : r.status = 200)
    (hj : r.json = some j) :
    requestLoop cfg env verb url body (fuel + 1) 0 st
      = some (ReqOutcome.ok j,
          { st with transportCalls := st.transportCalls + 1,
                    calls := st.calls ++ [⟨verb, url, body⟩] }) := by
  simp [requestLoop, hc, he, h200, hj]

/-- Witness for claim C8 at a concrete 200 response. -/
theorem request_success_returns_body_witness :
    requestLoop cfgEx envOk200 "GET" "u" none 1 0 stStart
      = some (ReqOutcome.ok Json.null, ⟨true, [], [⟨"GET", "u", none⟩], 1, []⟩) :=
  request_success_returns_body cfgEx envOk200 "GET" "u" none stStart 0
    rOk200 Json.null rfl rfl rfl rfl

/-- Claim C5: on a response whose status is neither 200 nor 401 the request
loop raises an APIError carrying the original response, and the APIError
message is taken from the error field of the decoded body when available,
falls back to the raw body when the body is non-empty but that lookup
fails, and falls back to the generic message when the body is empty. -/
theorem request_api_error
    (cfg : NestConfig) (env : ReqEnv) (verb url : String) (body : Option Json)
    (st : SessionState) (fuel : Nat) (r : HTTPResponse)
    (hc : st.client = true)
    (he : env.event 1 = TransportEvent.response r)
    (h200 : r.status ≠ 200)
    (h401 : r.status ≠ 401) :
    requestLoop cfg env verb url body (fuel + 1) 0 st
      = some (ReqOutcome.apiError r,
          { st with transportCalls := st.transportCalls + 1,
                    calls := st.calls ++ [⟨verb, url, body⟩] })
    ∧ (r.content = "" → apiErrorMessage r = APIErrorMessage.generic)
    ∧ (∀ j, r.content ≠ "" → jsonErrorField r = some j →
        apiErrorMessage r = APIErrorMessage.fromJson j)
    ∧ (r.content ≠ "" → jsonErrorField r = none →
        apiErrorMessage r = APIErrorMessage.raw r.content) := by
  refine ⟨by simp [requestLoop, hc, he, h200, h401], ?_, ?_, ?_⟩
  · intro hempty
    simp [apiErrorMessage, hempty]
  · intro j hne hj
    simp [apiErrorMessage, hne, hj]
  · intro hne hj
    simp [apiErrorMessage, hne, hj]

/-- Witness for claim C5 at a concrete 404 response carrying a decodable
error field. -/
theorem request_api_error_witness :
    requestLoop cfgEx env404 "GET" "u" none 1 0 stStart
      = some (ReqOutcome.apiError r404, ⟨true, [], [⟨"GET", "u", none⟩], 1, []⟩)
    ∧ apiErrorMessage r404 = APIErrorMessage.fromJson (Json.str "not found") := by
  have h := request_api_error cfgEx env404 "GET" "u" none stStart 0 r404
    rfl rfl (by decide) (by decide)
  exact ⟨h.1, h.2.2.1 (Json.str "not found") (by decide) rfl⟩

/-- Claim C9: any failure of the token load at construction is absorbed: an
unset cache path, a failing file read and a failing parse all load no
token, and whenever the load yields no token the constructor leaves the
session unauthenticated instead of raising; nestInit is a total function,
so no failure propagates. -/
theorem init_token_load_tolerant (env : InitEnv) :
    loadToken env none = none
    ∧ (∀ p e, env.readFile p = Except.error e → loadToken env (some p) = none)
    ∧ (∀ p s e, env.readFile p = Except.ok s → env.parse s = Except.error e →
        loadToken env (some p) = none)
    ∧ ∀ path, loadToken env path = none → nestInit env none path = false := by
  refine ⟨rfl, ?_, ?_, ?_⟩
  · intro p e h
    simp [loadToken, h]
  · intro p s e hr hp
    simp [loadToken, hr, hp]
  · intro path h
    simp [nestInit, tokenTruthy, h]

/-- Witness for claim C9 at a concrete failing file read. -/
theorem init_token_load_tolerant_witness :
    loadToken envFailFile (some "token.json") = none
    ∧ nestInit envFailFile none (some "token.json") = false := by
  have h := init_token_load_tolerant envFailFile
  have hl := h.2.1 "token.json" "io failure" rfl
  exact ⟨hl, h.2.2.2 (some "token.json") hl⟩

/-- Claim C3: after a read at time t1 past the validity window fetches
successfully and stamps the second clock read tSet, a second read at any
t2 with t2 at most tSet plus the period fetches nothing, so the pair
performs exactly one fetch; a third read at any t3 past tSet plus the
period performs a second fetch; and over all reads a fetch is attempted
only when now exceeds the last update plus the period. -/
theorem devices_cache_single_fetch
    (period : Nat) (st0 : CacheState) (t1 tSet t2 tSet2 t3 tSet3 : Nat)
    (devs : List DeviceRec) (f2 f3 : Except String (List DeviceRec))
    (stI : CacheState) (nowI nowAfterI : Nat)
    (fI : Except String (List DeviceRec))
    (h1 : st0.lastUpdate + period < t1)
    (h2 : t2 ≤ tSet + period)
    (h3 : tSet + period < t3) :
    (devicesRead period st0 t1 (Except.ok devs) tSet).2.2
      + (devicesRead period (devicesRead period st0 t1 (Except.ok devs) tSet).1
          t2 f2 tSet2).2.2 = 1
    ∧ (devicesRead period
        (devicesRead period (devicesRead period st0 t1 (Except.ok devs) tSet).1
          t2 f2 tSet2).1 t3 f3 tSet3).2.2 = 1
    ∧ ((devicesRead period stI nowI fI nowAfterI).2.2 = 1 →
        stI.lastUpdate + period < nowI) := by
  have hfirst : devicesRead period st0 t1 (Except.ok devs) tSet
      = (⟨tSet, devs⟩, devs, 1) := by
    simp [devicesRead, h1]
  have hsecond :
      devicesRead period (⟨tSet, devs⟩ : CacheState) t2 f2 tSet2
        = (⟨tSet, devs⟩, devs, 0) := by
    simp [devicesRead]
    omega
  refine ⟨?_, ?_, ?_⟩
  · rw [hfirst]
    simp only [hsecond, hfirst]
  · rw [hfirst]
    simp only [hsecond]
    cases f3 <;> simp [devicesRead, h3]
  · intro h
    by_contra hlt
    simp [devicesRead, hlt] at h

/-- Witness for claim C3 at concrete times around a ten-second window. -/
theorem devices_cache_single_fetch_witness :
    ((0 : Nat) + 10 < 11 ∧ 20 ≤ 12 + 10 ∧ 12 + 10 < 30)
    ∧ ((devicesRead 10 ⟨0, []⟩ 11 (Except.ok [⟨"d1", "t"⟩]) 12).2.2
        + (devicesRead 10 (devicesRead 10 ⟨0, []⟩ 11 (Except.ok [⟨"d1", "t"⟩]) 12).1
            20 (Except.ok []) 21).2.2 = 1
      ∧ (devicesRead 10
          (devicesRead 10 (devicesRead 10 ⟨0, []⟩ 11 (Except.ok [⟨"d1", "t"⟩]) 12).1
            20 (Except.ok []) 21).1 30 (Except.ok []) 31).2.2 = 1
      ∧ ((devicesRead 10 ⟨0, []⟩ 5 (Except.ok []) 5).2.2 = 1 →
          (0 : Nat) + 10 < 5)) :=
  ⟨by decide,
   devices_cache_single_fetch 10 ⟨0, []⟩ 11 12 20 21 30 31 [⟨"d1", "t"⟩]
     (Except.ok []) (Except.ok []) ⟨0, []⟩ 5 5 (Except.ok [])
     (by decide) (by decide) (by decide)⟩

/-- Claim C4: when a read past the validity window fetches and the fetch
raises, the state is returned unchanged, the previously stored inventory is
returned to the caller, and an immediate re-invocation at any t2 at least
now attempts the fetch again; devicesRead is a total function, so the
failure does not propagate. -/
theorem devices_cache_fetch_failure
    (period : Nat) (st : CacheState) (now nowAfter t2 tSet2 : Nat) (e : String)
    (f2 : Except String (List DeviceRec))
    (h1 : st.lastUpdate + period < now)
    (h2 : now ≤ t2) :
    (devicesRead period st now (Except.error e) nowAfter).1 = st
    ∧ (devicesRead period st now (Except.error e) nowAfter).2.1 = st.devicesValue
    ∧ (devicesRead period st now (Except.error e) nowAfter).2.2 = 1
    ∧ (devicesRead period (devicesRead period st now (Except.error e) nowAfter).1
        t2 f2 tSet2).2.2 = 1 := by
  have hthis : devicesRead period st now (Except.error e) nowAfter
      = (st, st.devicesValue, 1) := by
    simp [devicesRead, h1]
  refine ⟨by rw [hthis], by rw [hthis], by rw [hthis], ?_⟩
  rw [hthis]
  have hlt : st.lastUpdate + period < t2 := by omega
  cases f2 <;> simp [devicesRead, hlt]

/-- Witness for claim C4 at a concrete failing fetch with a non-empty
previous inventory. -/
theorem devices_cache_fetch_failure_witness :
    ((5 : Nat) + 10 < 16 ∧ 16 ≤ 16)
    ∧ ((devicesRead 10 ⟨5, [⟨"d1", "t"⟩]⟩ 16 (Except.error "boom") 17).1
         = ⟨5, [⟨"d1", "t"⟩]⟩
      ∧ (devicesRead 10 ⟨5, [⟨"d1", "t"⟩]⟩ 16 (Except.error "boom") 17).2.1
         = [⟨"d1", "t"⟩]
      ∧ (devicesRead 10 ⟨5, [⟨"d1", "t"⟩]⟩ 16 (Except.error "boom") 17).2.2 = 1
      ∧ (devicesRead 10
          (devicesRead 10 ⟨5, [⟨"d1", "t"⟩]⟩ 16 (Except.error "boom") 17).1
          16 (Except.ok []) 17).2.2 = 1) :=
  ⟨by decide,
   devices_cache_fetch_failure 10 ⟨5, [⟨"d1", "t"⟩]⟩ 16 17 16 17 "boom"
     (Except.ok []) (by decide) (by decide)⟩

/-- Claim C6, recorded as a bug of the code: with a configured callback the
reauthorization path never reaches the callback. The object has no binding
named project_id, so the attribute read self.project_id raises
AttributeError; and even the subsequent format call would fail, because the
template field project_id is named while the argument is passed
positionally, raising KeyError. The URL the spec intends, with the project
id substituted into the authorization endpoint, is intendedAuthorizeUrl. -/
theorem reauthorize_never_builds_url (cfg : NestConfig) (pid : String) :
    reauthorizeModel cfg true
      = Except.error (PyError.attributeError "project_id")
    ∧ pyFormat AUTHORIZE_URL [pid] []
      = Except.error (PyError.keyError "project_id")
    ∧ intendedAuthorizeUrl cfg.projectId
      = "https://nestservices.google.com/partnerconnections/"
          ++ cfg.projectId ++ "/auth" := by
  have hattr : ¬ ("project_id" ∈ nestAttributeNames) := by decide
  refine ⟨?_, ?_, rfl⟩
  · simp [reauthorizeModel, nestProjectIdLookup, hattr]
  · simp [pyFormat, AUTHORIZE_URL, pyFormatAux, formatField, fieldIndex, lookupKw]

/-- Claim C1: when the transport raises TokenExpiredError on the first
attempt and the refresh succeeds, the token is refreshed through the
refresh grant with the configured client id and secret, the new token is
persisted, and the request is retried exactly once. When the retry yields
a response of status other than 401, that retried result is returned
after exactly two transport calls. When the retry raises TokenExpiredError
again and that second refresh also succeeds, the call fails with the
AuthorizationError for repeated expiry after exactly two transport calls,
so no third attempt is performed. -/
theorem request_token_expiry_retry
    (cfg : NestConfig) (env : ReqEnv) (verb url : String) (body : Option Json)
    (st : SessionState) (fuel : Nat) (tok1 tok2 : Json) (r2 : HTTPResponse)
    (hc : st.client = true)
    (he1 : env.event 1 = TransportEvent.tokenExpired)
    (hr1 : env.refresh 1 = Except.ok tok1) :
    (env.event 2 = TransportEvent.response r2 → r2.status ≠ 401 →
      requestLoop cfg env verb url body (fuel + 2) 0 st
        = some (respOutcome r2,
            { client := st.client,
              saved := st.saved ++ [tok1],
              calls := st.calls ++ [⟨verb, url, body⟩],
              transportCalls := st.transportCalls + 2,
              refreshCalls :=
                st.refreshCalls ++ [(cfg.clientId, cfg.clientSecret)] }))
    ∧ (env.event 2 = TransportEvent.tokenExpired →
        env.refresh 2 = Except.ok tok2 →
      requestLoop cfg env verb url body (fuel + 2) 0 st
        = some (ReqOutcome.authError "Repeated TokenExpiredError",
            { client := st.client,
              saved := st.saved ++ [tok1, tok2],
              calls := st.calls,
              transportCalls := st.transportCalls + 2,
              refreshCalls :=
                st.refreshCalls ++ [(cfg.clientId, cfg.clientSecret),
                                    (cfg.clientId, cfg.clientSecret)] })) := by
  constructor
  · intro he2 h401
    by_cases h200 : r2.status = 200
    · cases hj : r2.json with
      | some j => simp [requestLoop, hc, he1, hr1, he2, h200, hj, respOutcome]
      | none => simp [requestLoop, hc, he1, hr1, he2, h200, hj, respOutcome]
    · simp [requestLoop, hc, he1, hr1, he2, h200, h401, respOutcome]
  · intro he2 hr2
    simp [requestLoop, hc, he1, hr1, he2, hr2]

/-- Witness for claim C1 at the concrete expire-then-200 environment. -/
theorem request_token_expiry_retry_witness :
    requestLoop cfgEx envExpireThenOk "GET" "u" none 2 0 stStart
      = some (ReqOutcome.ok Json.null,
          ⟨true, [Json.str "tok1"], [⟨"GET", "u", none⟩], 2,
           [("client-id", "client-secret")]⟩) := by
  have h := (request_token_expiry_retry cfgEx envExpireThenOk "GET" "u" none
    stStart 0 (Json.str "tok1") Json.null rOk200 rfl rfl rfl).1 rfl (by decide)
  simpa [stStart, cfgEx, respOutcome, rOk200] using h

/-- Claim C2 fails on the code and is corrected here: NestBase.set keeps
only the part of the device name after its last slash, because Nest.put
splits the path on slashes and keeps the last piece. The corrected claim:
for every device name and data, when the first attempt yields a 200
response, NestBase.set issues exactly one POST, whose URL is the device
API base followed by the put rewrite of the slash-name-executeCommand
path, with the caller-supplied data passed through verbatim as the body;
the fully qualified command string is supplied by the caller, as the
heat-setpoint setter does, not prepended by the component. -/
theorem set_command_one_post
    (cfg : NestConfig) (env : ReqEnv) (name : String) (data : Json)
    (st : SessionState) (r : HTTPResponse) (j : Json)
    (hc : st.client = true)
    (hcalls : st.calls = [])
    (he : env.event 1 = TransportEvent.response r)
    (h200 : r.status = 200)
    (hj : r.json = some j) :
    nestSet cfg env name data 1 st
      = some (ReqOutcome.ok j,
          { st with transportCalls := st.transportCalls + 1,
                    calls := [⟨"POST",
                      apiUrl cfg.projectId ++ putPath (setPath name),
                      some data⟩] })
    ∧ heatSetpointBody 21
      = Json.obj [("command",
            Json.str "sdm.devices.commands.ThermostatMode.SetHeat"),
          ("params", Json.obj [("heatCelsius", Json.num 21)])] := by
  constructor
  · simp [nestSet, nestPut, nestRequest, requestLoop, hc, hcalls, he, h200, hj]
  · rfl

/-- Counterexample for claim C2 as stated: for the device name device/123
the single issued POST goes to the URL ending in devices/123:executeCommand,
which does not end in device/123:executeCommand as the claim requires. -/
theorem set_command_url_counterexample :
    (nestSet cfgEx envOk200 "device/123" (heatSetpointBody 21) 1 stStart).map
        (fun p => (p.2.calls.map RequestCall.verb,
                   p.2.calls.map RequestCall.url))
      = some (["POST"],
          ["https://smartdevicemanagement.googleapis.com/v1/enterprises/proj/devices/123:executeCommand"])
    ∧ strEndsWith
        "https://smartdevicemanagement.googleapis.com/v1/enterprises/proj/devices/123:executeCommand"
        "/device/123:executeCommand" = false := by
  exact ⟨by decide, by decide⟩

/-- Witness for the corrected claim C2 at the device name device/123. -/
theorem set_command_one_post_witness :
    nestSet cfgEx envOk200 "device/123" (heatSetpointBody 21) 1 stStart
      = some (ReqOutcome.ok Json.null,
          ⟨true, [],
           [⟨"POST",
             "https://smartdevicemanagement.googleapis.com/v1/enterprises/proj/devices/123:executeCommand",
             some (heatSetpointBody 21)⟩], 1, []⟩) := by
  have h := (set_command_one_post cfgEx envOk200 "device/123"
    (heatSetpointBody 21) stStart rOk200 Json.null rfl rfl rfl rfl rfl).1
  have hurl : apiUrl cfgEx.projectId ++ putPath (setPath "device/123")
      = "https://smartdevicemanagement.googleapis.com/v1/enterprises/proj/devices/123:executeCommand" := by
    decide
  rw [hurl] at h
  simpa [stStart] using h

/-- Claim C10: a 401 response neither returns nor raises; the loop falls
through to reauthorization and re-attempts with no bound, so against an
environment answering every attempt with a 401 and succeeding at every
reauthorization, the request loop exhausts any amount of fuel without
terminating. -/
theorem request_all_401_no_termination
    (cfg : NestConfig) (env : ReqEnv) (verb url : String) (body : Option Json)
    (hev : ∀ n, ∃ r, env.event n = TransportEvent.response r ∧ r.status = 401)
    (hre : ∀ n, ∃ tok, env.reauth n = Except.ok tok) :
    ∀ fuel attempt st, requestLoop cfg env verb url body fuel attempt st = none := by
  intro fuel
  induction fuel with
  | zero => intro attempt st; rfl
  | succ fuel ih =>
    intro attempt st
    obtain ⟨r, her, h401⟩ := hev (attempt + 1)
    obtain ⟨tok, hto⟩ := hre (attempt + 1)
    by_cases hc : st.client = true
    · simp [requestLoop, hc, her, h401, hto, ih]
    · simp [requestLoop, hc, hto, ih]

/-- Witness for claim C10 at the concrete always-401 environment and fuel
five. -/
theorem request_all_401_no_termination_witness :
    requestLoop cfgEx env401Loop "GET" "" none 5 0 stStart = none :=
  request_all_401_no_termination cfgEx env401Loop "GET" "" none
    (fun _ => ⟨r401, rfl, rfl⟩) (fun _ => ⟨Json.null, rfl⟩) 5 0 stStart

end Nest
